import Mathlib

/-!
Verification of the streaming-reconciliation core of the gummy realtime
translation subtitle program (source files `gummy.py` and
`gummy_translator.py`).

The Python code is shallowly embedded: the incremental-result data model,
the two `process_result` variants (the `deque(maxlen=20)`-backed one in
`ModernFloatingSubtitleWindow.update_text` of `gummy.py`, and the
plain-list one with stash handling in
`FloatingSubtitleWindow.update_text` of `gummy_translator.py`), the
TTS word queueing in `Callback.on_event`, the TTS flush loop, the ASR
retry/backoff dispatch, the feed-loop device race handling, the
stop/release-resources action traces, and `set_languages`.
-/

/-- A recognized/translated word as delivered by the recognition service:
`word.text` plus the `word.fixed` flag. -/
structure Word where
  text : String
  fixed : Bool
deriving DecidableEq, Repr

/-- One incremental result for a single language track: the current word
list for the sentence in progress, the optional stash word list
(`result.stash.words` in the code, `none` when `result.stash is None`),
and the sentence-end flag. -/
structure IncrementalResult where
  words : List Word
  stash : Option (List Word)
  is_sentence_end : Bool
deriving DecidableEq, Repr

/-- Python `''.join(word.text for word in ws if word.fixed)`. -/
def fixedConcat (ws : List Word) : String :=
  String.join ((ws.filter (fun w => w.fixed)).map Word.text)

/-- Python `''.join(word.text for word in ws if not word.fixed)`. -/
def unfixedConcat (ws : List Word) : String :=
  String.join ((ws.filter (fun w => !w.fixed)).map Word.text)

/-- A transcript line `[fixed_text, unfixed_text]`. -/
abbrev TranscriptLine := String × String

/-- Assignment `buf[-1] = x` on a Python list/deque.  The buffers are initialized
nonempty (`[['', '']]`) and never emptied; on the unreachable empty
buffer Python would raise `IndexError`, here the buffer is returned
unchanged and all theorems assume nonemptiness. -/
def setLast : List TranscriptLine → TranscriptLine → List TranscriptLine
  | [], _ => []
  | [_], x => [x]
  | a :: b :: rest, x => a :: setLast (b :: rest) x

/-- Python `deque.append` with a `maxlen`: when the append overflows, elements
are evicted from the front. -/
def dequeAppend (maxlen : Nat) (buf : List TranscriptLine) (x : TranscriptLine) :
    List TranscriptLine :=
  let b := buf ++ [x]
  if maxlen < b.length then b.drop (b.length - maxlen) else b

namespace Gummy

/-- Constant `MAX_BUFFER_SIZE` in `ModernFloatingSubtitleWindow` (`gummy.py`):
both text buffers are `deque([['', '']], maxlen=MAX_BUFFER_SIZE)`. -/
def MAX_BUFFER_SIZE : Nat := 20

/-- The inner `process_result` of `ModernFloatingSubtitleWindow.update_text`
(`gummy.py` lines 1415-1428), acting on a `deque(maxlen=20)` buffer:
partition the words into fixed/unfixed concatenations, overwrite the
tail line, and on sentence end append a fresh empty tail line (the
deque evicts from the front if that overflows the capacity). -/
def process_result (r : IncrementalResult) (buf : List TranscriptLine) :
    List TranscriptLine :=
  let fixed_text := fixedConcat r.words
  let unfixed_text := unfixedConcat r.words
  let b1 := setLast buf (fixed_text, unfixed_text)
  if r.is_sentence_end then dequeAppend MAX_BUFFER_SIZE b1 ("", "") else b1

/-- Applying a whole sequence of incremental results in arrival order. -/
def applyResults (rs : List IncrementalResult) (buf : List TranscriptLine) :
    List TranscriptLine :=
  rs.foldl (fun b r => process_result r b) buf

/-- The text written to the text box by `update_text` (`gummy.py` lines
1441-1446): the concatenation of `fixed + unfixed` over every line but
the last, followed by the last (current) line. -/
def renderedText (buf : List TranscriptLine) : String :=
  String.join (buf.dropLast.map (fun x => x.1 ++ x.2))
    ++ ((buf.getLastD ("", "")).1 ++ (buf.getLastD ("", "")).2)

end Gummy

namespace GummyTranslator

/-- The inner `process_result` of `FloatingSubtitleWindow.update_text`
(`gummy_translator.py` lines 616-642), acting on a plain (unbounded)
list buffer: overwrite the tail with the fixed/unfixed partition of
`result.words`; if `result.is_sentence_end`, append a fresh empty tail
line; then, if `result.stash` is present, overwrite the (possibly just
appended) tail with the same partition of the stash words. -/
def process_result (r : IncrementalResult) (buf : List TranscriptLine) :
    List TranscriptLine :=
  let b1 := setLast buf (fixedConcat r.words, unfixedConcat r.words)
  let b2 := if r.is_sentence_end then b1 ++ [("", "")] else b1
  match r.stash with
  | some ws => setLast b2 (fixedConcat ws, unfixedConcat ws)
  | none => b2

/-- Applying a whole sequence of incremental results in arrival order. -/
def applyResults (rs : List IncrementalResult) (buf : List TranscriptLine) :
    List TranscriptLine :=
  rs.foldl (fun b r => process_result r b) buf

end GummyTranslator

/-- The result `R1 = {words: [("他", fixed), ("好", fixed)], sentenceEnd: false}`. -/
def scenarioR1 : IncrementalResult :=
  { words := [⟨"他", true⟩, ⟨"好", true⟩], stash := none, is_sentence_end := false }

/-- The result `R2 = {words: [("他", fixed), ("好", fixed), ("。", fixed)], sentenceEnd: true}`. -/
def scenarioR2 : IncrementalResult :=
  { words := [⟨"他", true⟩, ⟨"好", true⟩, ⟨"。", true⟩], stash := none, is_sentence_end := true }

/-- A result with no words that only signals the end of a sentence. -/
def sentenceEndOnly : IncrementalResult :=
  { words := [], stash := none, is_sentence_end := true }

/-- The result used to exhibit the stash ordering: main word `("a", fixed)`,
stash word `("b", fixed)`, sentence end. -/
def c6Result : IncrementalResult :=
  { words := [⟨"a", true⟩], stash := some [⟨"b", true⟩], is_sentence_end := true }

/-- The reconciliation step in the order the spec describes it (§4.2
steps 1-4): partition and overwrite the tail, then apply the stash
overwrite, and only then append the fresh empty tail line on sentence
end.  Written from the spec's words, to be compared against
`GummyTranslator.process_result`, which is transcribed from the code. -/
def specOrderProcessResult (r : IncrementalResult) (buf : List TranscriptLine) :
    List TranscriptLine :=
  let b1 := setLast buf (fixedConcat r.words, unfixedConcat r.words)
  let b2 :=
    match r.stash with
    | some ws => setLast b1 (fixedConcat ws, unfixedConcat ws)
    | none => b1
  if r.is_sentence_end then b2 ++ [("", "")] else b2

/-- One action of the recognition feed loop iteration. -/
inductive FeedAction where
  | read_and_send
  | sleep_retry (ms : Nat)
  | exit_loop
deriving DecidableEq, Repr

namespace Gummy

/-- One iteration of the audio feed loop in `TranslationService.asr_task`
(`gummy.py` lines 1845-1854): read+send a frame when `self.audio_stream`
is set, otherwise `time.sleep(0.1)` (100 ms) and retry. -/
def feed_step (audio_stream_open : Bool) : FeedAction :=
  if audio_stream_open then FeedAction.read_and_send else FeedAction.sleep_retry 100

/-- The word-collection loop of `Callback.on_event` (`gummy.py` lines
1815-1818): enumerate the words with index `i`; a word is put on
`asr_fixed_words` as `[word.text, False]` exactly when `word.fixed` and
`i >= tg_word_ptr`, incrementing the pointer. -/
def collectNewFixed : List Word → Nat → Nat → List (String × Bool) × Nat
  | [], _, ptr => ([], ptr)
  | w :: ws, i, ptr =>
    if w.fixed = true ∧ ptr ≤ i then
      ((w.text, false) :: (collectNewFixed ws (i + 1) (ptr + 1)).1,
        (collectNewFixed ws (i + 1) (ptr + 1)).2)
    else
      collectNewFixed ws (i + 1) ptr

/-- Model of `Callback.on_event` for one target-language translation result
(`gummy.py` lines 1810-1825): queue the newly fixed words, and on
sentence end queue the `['', True]` marker and reset the pointer.
Returns the queued items and the new `tg_word_ptr`. -/
def on_event (r : IncrementalResult) (tg_word_ptr : Nat) :
    List (String × Bool) × Nat :=
  let c := collectNewFixed r.words 0 tg_word_ptr
  if r.is_sentence_end then (c.1 ++ [("", true)], 0) else c

/-- All items queued on `asr_fixed_words` over a sequence of events. -/
def on_events : List IncrementalResult → Nat → List (String × Bool)
  | [], _ => []
  | r :: rs, ptr => (on_event r ptr).1 ++ on_events rs (on_event r ptr).2

/-- The clause-boundary punctuation marks of the TTS flush test
(`gummy.py` line 1915: `word in ['、', '，', '。']`). -/
def clause_boundary_marks : List String := ["、", "，", "。"]

/-- One iteration of the TTS loop of `TranslationService.tts_task`
(`gummy.py` lines 1913-1959) on a dequeued `(word, is_sentence_end)`
item.  On the flush condition, the word and the pause marker are
appended to the buffer and the buffer is handed to one synthesis
request (the first component); `raised` says whether `requests.request`
or the playback raised an exception inside the `try` block.  The reset
`buffer = ''` (line 1953) sits inside that `try`/`with`, so it runs
when no exception is raised (a non-2xx status is only logged and still
resets), but on a raised exception the `except` arms skip it and the
buffer keeps the flushed text, marker included.  On a non-flushing item
the word is only appended. -/
def tts_step (buffer : String) (word : String) (is_sentence_end : Bool)
    (raised : Bool) : Option String × String :=
  if is_sentence_end = true ∨ (word ∈ clause_boundary_marks ∧ 15 < buffer.length) then
    let b := buffer ++ (word ++ "[breath][breath][breath]")
    (some b, if raised then b else "")
  else
    (none, buffer ++ word)

/-- The failure classes of the `except` arms of
`TranslationService.asr_task` (`gummy.py` lines 1859-1884). -/
inductive FailureKind where
  | network
  | device
  | auth
  | unknown
deriving DecidableEq, Repr

/-- What one failure of the recognition loop produces: the new
`retry_count`, the `time.sleep` duration in seconds, and whether a
status string is posted to the UI. -/
structure RetryOutcome where
  retry_count : Nat
  sleep_seconds : Nat
  surfaced_to_ui : Bool
deriving DecidableEq, Repr

/-- Constant `max_retries` in `TranslationService.asr_task`. -/
def max_retries : Nat := 3

/-- The `except` dispatch of `TranslationService.asr_task` (`gummy.py`
lines 1859-1884): `requests.RequestException` → count+1, status, 2 s;
`pyaudio.PyAudioError` → count+1, status, 1 s; `AuthenticationError` →
status, 5 s (count untouched); any other exception → count+1, then 5 s
with a status if `retry_count >= max_retries`, else 1 s silently. -/
def asr_failure_step (retry_count : Nat) : FailureKind → RetryOutcome
  | FailureKind.network => ⟨retry_count + 1, 2, true⟩
  | FailureKind.device => ⟨retry_count + 1, 1, true⟩
  | FailureKind.auth => ⟨retry_count, 5, true⟩
  | FailureKind.unknown =>
    if max_retries ≤ retry_count + 1 then ⟨retry_count + 1, 5, true⟩
    else ⟨retry_count + 1, 1, false⟩

/-- The per-class retry delay as the claim states it: the Unknown delay
depends only on how often the Unknown failure itself has occurred.
Written from the spec's words, to be compared with `asr_failure_step`. -/
def claimedSleepSeconds (unknown_occurrences : Nat) : FailureKind → Nat
  | FailureKind.network => 2
  | FailureKind.device => 1
  | FailureKind.auth => 5
  | FailureKind.unknown => if unknown_occurrences < 3 then 1 else 5

/-- Observable actions of `TranslationService.stop` and
`TranslationService.release_resources`. -/
inductive SAction where
  | set_running (b : Bool)
  | post_status (s : String)
  | acquire_audio_lock
  | release_audio_lock
  | close_stream
  | terminate_mic
  | drain_queue (q : String)
  | join_worker (w : String) (timeout_seconds : Nat)
deriving DecidableEq, Repr

/-- Holds (`true`) exactly on a `join_worker` action. -/
def isJoin : SAction → Bool
  | SAction.join_worker _ _ => true
  | _ => false

/-- The service state touched by `stop`/`release_resources`: the running
flag, whether the capture stream and the PyAudio handle are open, and
whether the two worker threads are alive.  Joining with a timeout does
not guarantee a thread exits, and signalling does not stop it
synchronously, so these actions leave the alive flags unchanged. -/
structure ServiceState where
  is_running : Bool
  audio_stream_open : Bool
  mic_open : Bool
  asr_thread_alive : Bool
  tts_thread_alive : Bool
deriving DecidableEq, Repr

/-- Model of `TranslationService.close_audio_resources` (`gummy.py` lines
1614-1632): under `pyaudio_lock`, stop/close the stream and terminate
the PyAudio handle if they are set, clearing both fields. -/
def close_audio_resources (s : ServiceState) : ServiceState × List SAction :=
  ({ s with audio_stream_open := false, mic_open := false },
    [SAction.acquire_audio_lock]
      ++ (if s.audio_stream_open then [SAction.close_stream] else [])
      ++ (if s.mic_open then [SAction.terminate_mic] else [])
      ++ [SAction.release_audio_lock])

/-- Model of `TranslationService.stop` (`gummy.py` lines 1745-1759): clear the
running flag, post a status string, run `close_audio_resources`, then
close the (already cleared) stream and mic once more under the lock.
No worker thread is joined here. -/
def stop (s : ServiceState) : ServiceState × List SAction :=
  let s1 := { s with is_running := false }
  let c := close_audio_resources s1
  (c.1,
    [SAction.set_running false, SAction.post_status "翻译服务已停止"]
      ++ c.2
      ++ ([SAction.acquire_audio_lock]
          ++ (if c.1.audio_stream_open then [SAction.close_stream] else [])
          ++ (if c.1.mic_open then [SAction.terminate_mic] else [])
          ++ [SAction.release_audio_lock]))

/-- Model of `TranslationService.release_resources` (`gummy.py` lines 1963-2009):
clear the running flag, drain both queues, join each worker thread that
is alive with a 2-second timeout, run `close_audio_resources`, then
close the stream and mic once more under the lock. -/
def release_resources (s : ServiceState) : ServiceState × List SAction :=
  let s1 := { s with is_running := false }
  let c := close_audio_resources s1
  (c.1,
    [SAction.set_running false,
      SAction.drain_queue "wx_text_queue", SAction.drain_queue "asr_fixed_words"]
      ++ (if s1.asr_thread_alive then [SAction.join_worker "asr_thread" 2] else [])
      ++ (if s1.tts_thread_alive then [SAction.join_worker "tts_thread" 2] else [])
      ++ c.2
      ++ ([SAction.acquire_audio_lock]
          ++ (if c.1.audio_stream_open then [SAction.close_stream] else [])
          ++ (if c.1.mic_open then [SAction.terminate_mic] else [])
          ++ [SAction.release_audio_lock]))

/-- Keys of `TranslationService.SUPPORTED_LANGUAGES` (`gummy.py` lines
1589-1600), as the dict's key set (Python `in` tests keys). -/
def SUPPORTED_LANGUAGES : List String :=
  ["zh-CN", "en-US", "ja-JP", "ko-KR", "fr-FR", "de-DE", "es-ES", "ru-RU", "it-IT", "pt-PT"]

/-- The state touched by `TranslationService.set_languages`: the two
language fields, the in-memory `ConfigManager` entries
(`config.set(...)` mutates the `ConfigParser` object only), the
language entries of the config file on disk (written only by
`config.save()`, which `set_languages` never calls), the API key, and
the running flag. -/
structure LangState where
  source_language : String
  target_language : String
  cfg_source : String
  cfg_target : String
  file_source : String
  file_target : String
  api_key : String
  is_running : Bool
deriving DecidableEq, Repr

/-- Model of `TranslationService.set_languages` (`gummy.py` lines 1693-1711): if
both codes are supported, set both language fields, `config.set` both
in-memory entries, and if the service was running, `stop()` then
`start()` (which leaves it running again exactly when an API key is
configured); return `True`.  Otherwise return `False` and touch
nothing.  No `config.save()` is performed, so the on-disk entries are
unchanged in both branches. -/
def set_languages (src tgt : String) (s : LangState) : Bool × LangState :=
  if src ∈ SUPPORTED_LANGUAGES ∧ tgt ∈ SUPPORTED_LANGUAGES then
    let s1 := { s with
      source_language := src, target_language := tgt,
      cfg_source := src, cfg_target := tgt }
    let s2 := if s1.is_running then { s1 with is_running := s1.api_key != "" } else s1
    (true, s2)
  else
    (false, s)

end Gummy

namespace GummyTranslator

/-- One iteration of the audio feed loop in `gummyAsrTask`
(`gummy_translator.py` lines 151-160): read+send a frame when the
global `audio_stream` is set, otherwise `break` out of the loop. -/
def feed_step (audio_stream_open : Bool) : FeedAction :=
  if audio_stream_open then FeedAction.read_and_send else FeedAction.exit_loop

end GummyTranslator

/-- A concrete `LangState`: languages `zh-CN → en-US` everywhere, an API
key configured, service not running. -/
def c10State : Gummy.LangState :=
  { source_language := "zh-CN", target_language := "en-US",
    cfg_source := "zh-CN", cfg_target := "en-US",
    file_source := "zh-CN", file_target := "en-US",
    api_key := "k", is_running := false }

/-- A concrete running `ServiceState`: device open, both workers alive. -/
def c9State : Gummy.ServiceState :=
  { is_running := true, audio_stream_open := true, mic_open := true,
    asr_thread_alive := true, tts_thread_alive := true }

/-! ## Theorems -/

theorem setLast_eq_dropLast_append (buf : List TranscriptLine) (x : TranscriptLine)
    (h : buf ≠ []) : setLast buf x = buf.dropLast ++ [x] := by
  induction buf with
  | nil => exact absurd rfl h
  | cons a rest ih =>
    cases rest with
    | nil => rfl
    | cons b rest' =>
      simp only [setLast, List.dropLast_cons₂, List.cons_append]
      rw [ih (by simp)]

theorem length_setLast (buf : List TranscriptLine) (x : TranscriptLine) :
    (setLast buf x).length = buf.length := by
  induction buf with
  | nil => rfl
  | cons a rest ih =>
    cases rest with
    | nil => rfl
    | cons b rest' => simpa [setLast] using ih

theorem dequeAppend_of_lt (maxlen : Nat) (buf : List TranscriptLine)
    (x : TranscriptLine) (h : buf.length < maxlen) :
    dequeAppend maxlen buf x = buf ++ [x] := by
  simp only [dequeAppend, List.length_append, List.length_singleton]
  rw [if_neg (by omega)]

theorem dequeAppend_of_full (maxlen : Nat) (buf : List TranscriptLine)
    (x : TranscriptLine) (h : buf.length = maxlen) (h0 : 0 < maxlen) :
    dequeAppend maxlen buf x = buf.drop 1 ++ [x] := by
  simp only [dequeAppend, List.length_append, List.length_singleton]
  rw [if_pos (by omega)]
  have h1 : buf.length + 1 - maxlen = 1 := by omega
  rw [h1, List.drop_append_of_le_length (by omega)]

theorem gummy_applyResults_no_end (pre : List IncrementalResult) :
    ∀ buf : List TranscriptLine, buf ≠ [] →
      (∀ r ∈ pre, r.is_sentence_end = false) →
      ∃ t, Gummy.applyResults pre buf = buf.dropLast ++ [t] := by
  induction pre with
  | nil =>
    intro buf hne _
    exact ⟨buf.getLast hne, by
      simp [Gummy.applyResults, List.dropLast_append_getLast hne]⟩
  | cons r pre ih =>
    intro buf hne hall
    have hr : r.is_sentence_end = false := hall r (by simp)
    have hstep : Gummy.process_result r buf
        = buf.dropLast ++ [(fixedConcat r.words, unfixedConcat r.words)] := by
      simp only [Gummy.process_result, hr, Bool.false_eq_true, if_false]
      exact setLast_eq_dropLast_append buf _ hne
    have hrec := ih (buf.dropLast ++ [(fixedConcat r.words, unfixedConcat r.words)])
      (by simp) (fun r' hr' => hall r' (by simp [hr']))
    obtain ⟨t, ht⟩ := hrec
    refine ⟨t, ?_⟩
    have hfold : Gummy.applyResults (r :: pre) buf
        = Gummy.applyResults pre (Gummy.process_result r buf) := rfl
    rw [hfold, hstep, ht]
    simp

/-- C2 (amended): for a sequence whose results all have
`is_sentence_end = false` except the last, applied to a nonempty buffer
strictly below capacity, the buffer gains exactly one line and the newly
closed line is the fixed/unfixed partition of the final result's words;
but re-applying that final result a second time appends a second copy of
the closed line (and a fresh tail) instead of leaving the buffer
unchanged. -/
theorem c2_amended (pre : List IncrementalResult) (rlast : IncrementalResult)
    (buf : List TranscriptLine)
    (hpre : ∀ r ∈ pre, r.is_sentence_end = false)
    (hend : rlast.is_sentence_end = true)
    (hne : buf ≠ []) (hlen : buf.length + 1 < Gummy.MAX_BUFFER_SIZE) :
    Gummy.applyResults (pre ++ [rlast]) buf
        = buf.dropLast
            ++ [(fixedConcat rlast.words, unfixedConcat rlast.words), ("", "")]
      ∧ (Gummy.applyResults (pre ++ [rlast]) buf).length = buf.length + 1
      ∧ Gummy.process_result rlast (Gummy.applyResults (pre ++ [rlast]) buf)
          = buf.dropLast
              ++ [(fixedConcat rlast.words, unfixedConcat rlast.words),
                  (fixedConcat rlast.words, unfixedConcat rlast.words), ("", "")] := by
  obtain ⟨t, ht⟩ := gummy_applyResults_no_end pre buf hne hpre
  have hbuflen : 1 ≤ buf.length := by
    cases buf with
    | nil => exact absurd rfl hne
    | cons a l => simp
  have hdrop : buf.dropLast.length = buf.length - 1 := List.length_dropLast buf
  have hsplit : Gummy.applyResults (pre ++ [rlast]) buf
      = Gummy.process_result rlast (Gummy.applyResults pre buf) := by
    simp [Gummy.applyResults, List.foldl_append]
  have hlast : Gummy.process_result rlast (buf.dropLast ++ [t])
      = buf.dropLast
          ++ [(fixedConcat rlast.words, unfixedConcat rlast.words), ("", "")] := by
    simp only [Gummy.process_result, hend, if_true]
    rw [setLast_eq_dropLast_append _ _ (by simp), List.dropLast_concat]
    rw [dequeAppend_of_lt _ _ _ (by simp [hdrop]; omega)]
    simp
  have h1 : Gummy.applyResults (pre ++ [rlast]) buf
      = buf.dropLast
          ++ [(fixedConcat rlast.words, unfixedConcat rlast.words), ("", "")] := by
    rw [hsplit, ht, hlast]
  refine ⟨h1, ?_, ?_⟩
  · rw [h1, List.length_append, hdrop]; simp; omega
  · rw [h1]
    simp only [Gummy.process_result, hend, if_true]
    have hX : (buf.dropLast
        ++ [(fixedConcat rlast.words, unfixedConcat rlast.words), ("", "")]).dropLast
        = buf.dropLast ++ [(fixedConcat rlast.words, unfixedConcat rlast.words)] := by
      rw [show [(fixedConcat rlast.words, unfixedConcat rlast.words),
            (("" : String), ("" : String))]
            = [(fixedConcat rlast.words, unfixedConcat rlast.words)] ++ [("", "")] from rfl,
          ← List.append_assoc, List.dropLast_concat]
    rw [setLast_eq_dropLast_append _ _ (by simp), hX]
    rw [dequeAppend_of_lt _ _ _ (by simp [hdrop]; omega)]
    simp

/-- C2 (counterexample to the claim as stated): replaying the same final
sentence-end result a second time does change the buffer — the closed
line is duplicated. -/
theorem c2_counterexample :
    Gummy.process_result scenarioR2 (Gummy.process_result scenarioR2 [("", "")])
      ≠ Gummy.process_result scenarioR2 [("", "")] := by decide

/-- C2 witness: the amended theorem applied to the concrete scenario
(prefix `[R1]`, final result `R2`, empty starting buffer). -/
theorem c2_amended_witness :
    Gummy.applyResults ([scenarioR1] ++ [scenarioR2]) [("", "")]
        = [("他好。", ""), ("", "")]
      ∧ (Gummy.applyResults ([scenarioR1] ++ [scenarioR2]) [("", "")]).length = 1 + 1
      ∧ Gummy.process_result scenarioR2
            (Gummy.applyResults ([scenarioR1] ++ [scenarioR2]) [("", "")])
          = [("他好。", ""), ("他好。", ""), ("", "")] :=
  c2_amended [scenarioR1] scenarioR2 [("", "")] (by decide) rfl (by decide) (by decide)

theorem length_dequeAppend_le (maxlen : Nat) (buf : List TranscriptLine)
    (x : TranscriptLine) (h : buf.length ≤ maxlen) :
    (dequeAppend maxlen buf x).length ≤ maxlen := by
  simp only [dequeAppend]
  split <;> rename_i hcond <;>
    simp only [List.length_drop, List.length_append, List.length_singleton] at hcond ⊢ <;>
    omega

theorem gummy_process_result_length_le (r : IncrementalResult)
    (buf : List TranscriptLine) (h : buf.length ≤ Gummy.MAX_BUFFER_SIZE) :
    (Gummy.process_result r buf).length ≤ Gummy.MAX_BUFFER_SIZE := by
  simp only [Gummy.process_result]
  split
  · exact length_dequeAppend_le _ _ _ (by rw [length_setLast]; exact h)
  · rw [length_setLast]; exact h

/-- C3 (amended): the `gummy.py` buffers (deques with `maxlen = 20`)
never exceed 20 lines under any sequence of results, and at capacity a
sentence end evicts exactly the oldest line from the front, keeping the
20 most recent lines including the fresh open tail.  (The
`gummy_translator.py` buffers are plain lists and are unbounded; see the
counterexample.) -/
theorem c3_amended (rs : List IncrementalResult) :
    ∀ buf : List TranscriptLine, buf.length ≤ Gummy.MAX_BUFFER_SIZE →
      (Gummy.applyResults rs buf).length ≤ Gummy.MAX_BUFFER_SIZE
        ∧ ∀ r : IncrementalResult, buf.length = Gummy.MAX_BUFFER_SIZE →
            r.is_sentence_end = true →
            Gummy.process_result r buf
              = (setLast buf (fixedConcat r.words, unfixedConcat r.words)).drop 1
                  ++ [("", "")] := by
  induction rs with
  | nil =>
    intro buf h
    refine ⟨h, ?_⟩
    intro r hfull hend
    simp only [Gummy.process_result, hend, if_true]
    exact dequeAppend_of_full _ _ _ (by rw [length_setLast]; exact hfull) (by decide)
  | cons r0 rs ih =>
    intro buf h
    refine ⟨?_, ?_⟩
    · have hstep := gummy_process_result_length_le r0 buf h
      exact (ih (Gummy.process_result r0 buf) hstep).1
    · intro r hfull hend
      simp only [Gummy.process_result, hend, if_true]
      exact dequeAppend_of_full _ _ _ (by rw [length_setLast]; exact hfull) (by decide)

/-- C3 (counterexample to the claim as stated): the
`gummy_translator.py` transcript buffers are plain Python lists with no
capacity handling — 21 sentence ends starting from the fresh buffer
leave 22 lines, above the claimed bound of 20. -/
theorem c3_counterexample :
    (GummyTranslator.applyResults (List.replicate 21 sentenceEndOnly) [("", "")]).length = 22
      ∧ 20 < (GummyTranslator.applyResults
          (List.replicate 21 sentenceEndOnly) [("", "")]).length := by
  constructor <;> decide

/-- C3 witness: the amended theorem at a concrete buffer already at
capacity, exercising both the bound and the front eviction. -/
theorem c3_amended_witness :
    (Gummy.applyResults [] (List.replicate 20 ("", ""))).length ≤ Gummy.MAX_BUFFER_SIZE
      ∧ Gummy.process_result sentenceEndOnly (List.replicate 20 ("", ""))
          = (setLast (List.replicate 20 ("", ""))
                (fixedConcat sentenceEndOnly.words, unfixedConcat sentenceEndOnly.words)).drop 1
              ++ [("", "")] :=
  ⟨(c3_amended [] (List.replicate 20 ("", "")) (by decide)).1,
    (c3_amended [] (List.replicate 20 ("", "")) (by decide)).2 sentenceEndOnly (by decide) rfl⟩

/-- C6 (amended): when a result carries both a stash and the
sentence-end flag, `gummy_translator.py` applies the stash overwrite
*after* appending the fresh empty tail line, so the stash partition
replaces the fresh tail (the next sentence's open line) and the closed
line keeps the partition of the main word list. -/
theorem c6_amended (r : IncrementalResult) (ws : List Word)
    (buf : List TranscriptLine) (hstash : r.stash = some ws)
    (hend : r.is_sentence_end = true) :
    GummyTranslator.process_result r buf
      = setLast buf (fixedConcat r.words, unfixedConcat r.words)
          ++ [(fixedConcat ws, unfixedConcat ws)] := by
  simp only [GummyTranslator.process_result, hstash, hend, if_true]
  rw [setLast_eq_dropLast_append _ _ (by simp), List.dropLast_concat]

/-- C6 (counterexample to the claim as stated): the code's result
differs from the spec's step order — on `c6Result` the code closes the
line as `("a", "")` and fills the fresh tail with the stash `("b", "")`,
while the claimed order would close `("b", "")` and leave the fresh tail
empty. -/
theorem c6_counterexample :
    GummyTranslator.process_result c6Result [("", "")]
        ≠ specOrderProcessResult c6Result [("", "")]
      ∧ GummyTranslator.process_result c6Result [("", "")] = [("a", ""), ("b", "")]
      ∧ specOrderProcessResult c6Result [("", "")] = [("b", ""), ("", "")] := by
  refine ⟨?_, ?_, ?_⟩ <;> decide

/-- C6 witness: the amended theorem at the concrete stash scenario. -/
theorem c6_amended_witness :
    GummyTranslator.process_result c6Result [("", "")]
      = setLast [("", "")] (fixedConcat c6Result.words, unfixedConcat c6Result.words)
          ++ [(fixedConcat [⟨"b", true⟩], unfixedConcat [⟨"b", true⟩])] :=
  c6_amended c6Result [⟨"b", true⟩] [("", "")] rfl rfl

theorem collectNewFixed_mem (ws : List Word) :
    ∀ (i ptr : Nat) (item : String × Bool),
      item ∈ (Gummy.collectNewFixed ws i ptr).1 →
      ∃ w ∈ ws, w.fixed = true ∧ item = (w.text, false) := by
  induction ws with
  | nil =>
    intro i ptr item h
    simp [Gummy.collectNewFixed] at h
  | cons w ws ih =>
    intro i ptr item h
    by_cases hc : w.fixed = true ∧ ptr ≤ i
    · rw [Gummy.collectNewFixed, if_pos hc] at h
      rcases List.mem_cons.mp h with heq | htail
      · exact ⟨w, by simp, hc.1, heq⟩
      · obtain ⟨w', hw', hfix, heq⟩ := ih _ _ _ htail
        exact ⟨w', by simp [hw'], hfix, heq⟩
    · rw [Gummy.collectNewFixed, if_neg hc] at h
      obtain ⟨w', hw', hfix, heq⟩ := ih _ _ _ h
      exact ⟨w', by simp [hw'], hfix, heq⟩

theorem on_event_mem (r : IncrementalResult) (ptr : Nat) (item : String × Bool)
    (h : item ∈ (Gummy.on_event r ptr).1) :
    item = ("", true) ∨ ∃ w ∈ r.words, w.fixed = true ∧ item = (w.text, false) := by
  rw [Gummy.on_event] at h
  by_cases hend : r.is_sentence_end = true
  · rw [if_pos hend] at h
    rcases List.mem_append.mp h with hc | hm
    · exact Or.inr (collectNewFixed_mem r.words 0 ptr item hc)
    · exact Or.inl (List.mem_singleton.mp hm)
  · rw [if_neg hend] at h
    exact Or.inr (collectNewFixed_mem r.words 0 ptr item h)

/-- C4: over any sequence of results and any starting word pointer,
every `(text, False)` item placed on the `asr_fixed_words` queue by
`Callback.on_event` takes its text from a word whose `fixed` flag was
true in the result it came from; the only other queued items are the
`('', True)` sentence-end markers.  No unfixed word text reaches the
synthesis queue. -/
theorem c4_fixed_only (rs : List IncrementalResult) :
    ∀ (ptr : Nat) (item : String × Bool), item ∈ Gummy.on_events rs ptr →
      item.2 = false →
      ∃ r ∈ rs, ∃ w ∈ r.words, w.fixed = true ∧ item.1 = w.text := by
  induction rs with
  | nil =>
    intro ptr item h _
    simp [Gummy.on_events] at h
  | cons r rs ih =>
    intro ptr item h hunf
    rw [Gummy.on_events] at h
    rcases List.mem_append.mp h with hhead | htail
    · rcases on_event_mem r ptr item hhead with hmark | ⟨w, hw, hfix, heq⟩
      · rw [hmark] at hunf; simp at hunf
      · exact ⟨r, by simp, w, hw, hfix, by rw [heq]⟩
    · obtain ⟨r', hr', w, hw, hfix, heq⟩ := ih _ _ htail hunf
      exact ⟨r', by simp [hr'], w, hw, hfix, heq⟩

/-- C4 witness: the theorem at a single result carrying one fixed word. -/
theorem c4_fixed_only_witness :
    ∃ r ∈ [({ words := [⟨"好", true⟩], stash := none,
                is_sentence_end := false } : IncrementalResult)],
      ∃ w ∈ r.words, w.fixed = true ∧ ("好", false).1 = w.text :=
  c4_fixed_only
    [{ words := [⟨"好", true⟩], stash := none, is_sentence_end := false }]
    0 ("好", false) (by decide) rfl

/-- C5 (amended): one TTS loop iteration flushes exactly when the
dequeued item has `is_sentence_end` true, or the word is one of `、`,
`，`, `。` and the buffer holds more than 15 characters; on flush the
pause marker is appended after the word and the whole buffer is handed
to one synthesis request, and the buffer is reset to empty only when no
exception is raised by the request or playback — a raised exception
skips the reset and the buffer keeps the flushed text; on a
non-flushing item the word is only appended to the buffer. -/
theorem c5_amended (buffer word : String) (is_end raised : Bool) :
    (Gummy.tts_step buffer word is_end raised
      = if is_end = true ∨ ((word = "、" ∨ word = "，" ∨ word = "。") ∧ 15 < buffer.length)
        then (some (buffer ++ word ++ "[breath][breath][breath]"),
              if raised then buffer ++ word ++ "[breath][breath][breath]" else "")
        else (none, buffer ++ word))
    ∧ ((Gummy.tts_step buffer word is_end raised).1.isSome = true
        ↔ (is_end = true
            ∨ ((word = "、" ∨ word = "，" ∨ word = "。") ∧ 15 < buffer.length))) := by
  have hmem : (word ∈ Gummy.clause_boundary_marks)
      ↔ (word = "、" ∨ word = "，" ∨ word = "。") := by
    simp [Gummy.clause_boundary_marks]
  have h1 : Gummy.tts_step buffer word is_end raised
      = if is_end = true ∨ ((word = "、" ∨ word = "，" ∨ word = "。") ∧ 15 < buffer.length)
        then (some (buffer ++ word ++ "[breath][breath][breath]"),
              if raised then buffer ++ word ++ "[breath][breath][breath]" else "")
        else (none, buffer ++ word) := by
    simp only [Gummy.tts_step]
    exact if_congr (by rw [hmem]) (by simp [String.append_assoc]) rfl
  refine ⟨h1, ?_⟩
  rw [h1]
  split_ifs with h <;> simp [h]

/-- C5 (counterexample to the claim as stated): a flush on a 16-character
buffer and the word `。` during which the synthesis request raises does
not reset the buffer to empty — the flushed text, pause marker included,
is retained. -/
theorem c5_counterexample :
    (Gummy.tts_step "0123456789abcdef" "。" false true).1
        = some "0123456789abcdef。[breath][breath][breath]"
      ∧ (Gummy.tts_step "0123456789abcdef" "。" false true).2
          = "0123456789abcdef。[breath][breath][breath]"
      ∧ (Gummy.tts_step "0123456789abcdef" "。" false true).2 ≠ "" := by
  refine ⟨rfl, rfl, ?_⟩
  decide

/-- C7 (amended): the retry counter of `asr_task` is shared across the
failure classes — network, device and unknown failures all increment
it, and the Unknown arm sleeps 1 s (silently) exactly while that shared
counter, including the current failure, is below `max_retries = 3`,
otherwise it posts a status and sleeps 5 s; network sleeps 2 s, device
1 s, auth 5 s with a status and without touching the counter. -/
theorem c7_amended (rc : Nat) :
    Gummy.asr_failure_step rc Gummy.FailureKind.network = ⟨rc + 1, 2, true⟩
      ∧ Gummy.asr_failure_step rc Gummy.FailureKind.device = ⟨rc + 1, 1, true⟩
      ∧ Gummy.asr_failure_step rc Gummy.FailureKind.auth = ⟨rc, 5, true⟩
      ∧ Gummy.asr_failure_step rc Gummy.FailureKind.unknown
          = if rc + 1 < 3 then ⟨rc + 1, 1, false⟩ else ⟨rc + 1, 5, true⟩ := by
  refine ⟨rfl, rfl, rfl, ?_⟩
  simp only [Gummy.asr_failure_step, Gummy.max_retries]
  split_ifs with h1 h2 <;> first | rfl | omega

/-- C7 (counterexample to the claim as stated): after two network
failures the shared counter is 2, so the very first Unknown failure
already sleeps 5 s and is reported — not the 1 s the claim assigns to
an Unknown failure that has occurred fewer than 3 times. -/
theorem c7_counterexample :
    (Gummy.asr_failure_step 0 Gummy.FailureKind.network).retry_count = 1
      ∧ (Gummy.asr_failure_step 1 Gummy.FailureKind.network).retry_count = 2
      ∧ (Gummy.asr_failure_step 2 Gummy.FailureKind.unknown).sleep_seconds = 5
      ∧ (Gummy.asr_failure_step 2 Gummy.FailureKind.unknown).surfaced_to_ui = true
      ∧ Gummy.claimedSleepSeconds 1 Gummy.FailureKind.unknown = 1
      ∧ (Gummy.asr_failure_step 2 Gummy.FailureKind.unknown).sleep_seconds
          ≠ Gummy.claimedSleepSeconds 1 Gummy.FailureKind.unknown := by
  refine ⟨rfl, rfl, rfl, rfl, rfl, ?_⟩
  decide

/-- C7 witness: the amended theorem at the concrete counter value 2. -/
theorem c7_amended_witness :
    Gummy.asr_failure_step 2 Gummy.FailureKind.network = ⟨2 + 1, 2, true⟩
      ∧ Gummy.asr_failure_step 2 Gummy.FailureKind.device = ⟨2 + 1, 1, true⟩
      ∧ Gummy.asr_failure_step 2 Gummy.FailureKind.auth = ⟨2, 5, true⟩
      ∧ Gummy.asr_failure_step 2 Gummy.FailureKind.unknown
          = if 2 + 1 < 3 then ⟨2 + 1, 1, false⟩ else ⟨2 + 1, 5, true⟩ :=
  c7_amended 2

/-- C8 (amended): when the audio stream is not yet open, one iteration
of the `gummy.py` feed loop skips the read and sleeps 100 ms (not the
claimed 10 ms) before retrying, while the `gummy_translator.py` feed
loop exits instead of retrying; with the stream open both read and
send a frame. -/
theorem c8_amended :
    Gummy.feed_step false = FeedAction.sleep_retry 100
      ∧ Gummy.feed_step true = FeedAction.read_and_send
      ∧ GummyTranslator.feed_step false = FeedAction.exit_loop
      ∧ GummyTranslator.feed_step true = FeedAction.read_and_send := by
  refine ⟨rfl, rfl, rfl, rfl⟩

/-- C8 (counterexample to the claim as stated): the `gummy.py` sleep is
not 10 ms, and the `gummy_translator.py` loop does exit when the device
is not open. -/
theorem c8_counterexample :
    Gummy.feed_step false ≠ FeedAction.sleep_retry 10
      ∧ GummyTranslator.feed_step false = FeedAction.exit_loop := by
  constructor
  · decide
  · rfl

/-- C9 (amended): `stop()` clears the running flag and closes the
stream and mic under the audio lock (the acquire/close/terminate/release
block is a contiguous part of its trace), but joins no worker thread —
the alive flags are untouched; the bounded 2-second-per-worker join is
performed by `release_resources()`, whose trace joins exactly the alive
workers with timeout 2 s. -/
theorem c9_amended (s : Gummy.ServiceState) :
    (Gummy.stop s).1.is_running = false
      ∧ (Gummy.stop s).1.audio_stream_open = false
      ∧ (Gummy.stop s).1.mic_open = false
      ∧ (Gummy.stop s).1.asr_thread_alive = s.asr_thread_alive
      ∧ (Gummy.stop s).1.tts_thread_alive = s.tts_thread_alive
      ∧ (Gummy.stop s).2.filter Gummy.isJoin = []
      ∧ ([Gummy.SAction.acquire_audio_lock]
          ++ (if s.audio_stream_open then [Gummy.SAction.close_stream] else [])
          ++ (if s.mic_open then [Gummy.SAction.terminate_mic] else [])
          ++ [Gummy.SAction.release_audio_lock]) <:+: (Gummy.stop s).2
      ∧ (Gummy.release_resources s).2.filter Gummy.isJoin
          = (if s.asr_thread_alive then [Gummy.SAction.join_worker "asr_thread" 2] else [])
            ++ (if s.tts_thread_alive then [Gummy.SAction.join_worker "tts_thread" 2] else []) := by
  rcases s with ⟨r, a, m, ta, tt⟩
  cases r <;> cases a <;> cases m <;> cases ta <;> cases tt <;> decide

/-- C9 (counterexample to the claim as stated): on a running service
with both workers alive, `stop()` returns with both worker threads
still alive and without a single join in its trace; the 2-second joins
only appear in the trace of `release_resources()`. -/
theorem c9_counterexample :
    (Gummy.stop c9State).1.asr_thread_alive = true
      ∧ (Gummy.stop c9State).1.tts_thread_alive = true
      ∧ (Gummy.stop c9State).2.filter Gummy.isJoin = []
      ∧ (Gummy.release_resources c9State).2.filter Gummy.isJoin
          = [Gummy.SAction.join_worker "asr_thread" 2,
              Gummy.SAction.join_worker "tts_thread" 2] := by
  decide

/-- C10 (amended): `set_languages` returns `True` and updates the two
language fields and the in-memory config entries exactly when both
codes are supported, restarting a running service (leaving it running
again exactly when an API key is configured); with an unsupported code
it returns `False` and the state is completely untouched.  In both
branches the config file on disk is unchanged — `set_languages` never
calls `config.save()`. -/
theorem c10_amended (src tgt : String) (s : Gummy.LangState) :
    (Gummy.set_languages src tgt s
      = if src ∈ Gummy.SUPPORTED_LANGUAGES ∧ tgt ∈ Gummy.SUPPORTED_LANGUAGES
        then (true,
          { s with
            source_language := src, target_language := tgt,
            cfg_source := src, cfg_target := tgt,
            is_running := if s.is_running then s.api_key != "" else s.is_running })
        else (false, s))
      ∧ (Gummy.set_languages src tgt s).2.file_source = s.file_source
      ∧ (Gummy.set_languages src tgt s).2.file_target = s.file_target := by
  by_cases h : src ∈ Gummy.SUPPORTED_LANGUAGES ∧ tgt ∈ Gummy.SUPPORTED_LANGUAGES
  · by_cases hr : s.is_running
    · refine ⟨?_, ?_, ?_⟩ <;> simp [Gummy.set_languages, h, hr]
    · refine ⟨?_, ?_, ?_⟩ <;> simp [Gummy.set_languages, h, hr]
  · refine ⟨?_, ?_, ?_⟩ <;> simp [Gummy.set_languages, h]

/-- C10 (counterexample to the claim as stated): a successful
`set_languages("en-US", "ja-JP")` call returns `True` and updates the
service fields and the in-memory config, but the persisted (on-disk)
config still holds the old source language. -/
theorem c10_counterexample :
    (Gummy.set_languages "en-US" "ja-JP" c10State).1 = true
      ∧ (Gummy.set_languages "en-US" "ja-JP" c10State).2.source_language = "en-US"
      ∧ (Gummy.set_languages "en-US" "ja-JP" c10State).2.cfg_source = "en-US"
      ∧ (Gummy.set_languages "en-US" "ja-JP" c10State).2.file_source = "zh-CN"
      ∧ (Gummy.set_languages "en-US" "ja-JP" c10State).2.file_source ≠ "en-US" := by
  refine ⟨rfl, rfl, rfl, rfl, ?_⟩
  decide

/-- C1: feeding `R1` then `R2` to the reconciler starting from the empty
buffer (a single open empty line) yields the buffer
`[{"他好。", ""}, {"", ""}]` and rendered text `"他好。"`. -/
theorem c1_scenario :
    Gummy.applyResults [scenarioR1, scenarioR2] [("", "")]
        = [("他好。", ""), ("", "")]
      ∧ Gummy.renderedText
          (Gummy.applyResults [scenarioR1, scenarioR2] [("", "")]) = "他好。" := by
  constructor <;> rfl
